import Mathlib

/-!
Verification of the PE (Portable Executable) parsing core of execdump
(src/pe.rs), as a shallow embedding in Lean 4.

Modelling conventions:
- The file buffer (Rust `Vec<u8>`) is a pair of an indexing function
  `Nat → Nat` and a length; a byte read reduces the stored value mod 256
  (a `Vec<u8>` cell is always < 256).
- A Rust `io::Cursor` is a `Cursor`: the buffer plus a position.
- Fallible Rust code returning `Result<T, Box<dyn Error>>` is modelled by
  `PResult`: `ok` for `Ok`, `err` for `Err` (the code only ever constructs
  string errors), and `fatal` for a Rust panic (`expect`, `todo!`), which
  aborts the process rather than returning an error value.
- Machine integers are `Nat`s; wrapping arithmetic (release-profile Rust
  semantics) is written with an explicit `% 2^w` at the sites where the
  source performs an overflowing machine operation, bit masks `x & (2^k-1)`
  are `% 2^k`, and top-bit tests are `Nat.testBit`.
- Rust `String`s produced by `String::from_utf8` are kept as the underlying
  byte lists; the UTF-8 validity check that `from_utf8` performs (whose
  failure the source turns into a panic via `expect`) is `isValidUtf8`.
-/

namespace ExecDump

/-- Result of a fallible parsing step: `ok`, an `Err` value (`err`), or a
Rust panic (`fatal`), which is a process abort, not an error value. -/
inductive PResult (α : Type) where
  | ok : α → PResult α
  | err : String → PResult α
  | fatal : String → PResult α
deriving DecidableEq

/-- `Result::expect(msg)`: pass `Ok` through, turn `Err` into a panic. -/
def PResult.expectWith (msg : String) : PResult α → PResult α
  | .ok a => .ok a
  | .err _ => .fatal msg
  | .fatal m => .fatal m

/-- Is this result an `Err`? -/
def PResult.isErr : PResult α → Bool
  | .err _ => true
  | _ => false

/-- An in-memory byte buffer (`Vec<u8>`) with a read position
(`io::Cursor<&Vec<u8>>`). -/
structure Cursor where
  data : Nat → Nat
  size : Nat
  pos : Nat

/-- `cursor.set_position(p)`. -/
def Cursor.setPos (c : Cursor) (p : Nat) : Cursor := { c with pos := p }

@[simp] theorem Cursor.setPos_data (c : Cursor) (p : Nat) : (c.setPos p).data = c.data := rfl
@[simp] theorem Cursor.setPos_size (c : Cursor) (p : Nat) : (c.setPos p).size = c.size := rfl
@[simp] theorem Cursor.setPos_pos (c : Cursor) (p : Nat) : (c.setPos p).pos = p := rfl

theorem Cursor.setPos_self (c : Cursor) : c.setPos c.pos = c := rfl

@[simp] theorem Cursor.setPos_setPos (c : Cursor) (p q : Nat) :
    (c.setPos p).setPos q = c.setPos q := rfl

/-- The state-passing parser monad: Rust's pattern of threading a
`&mut io::Cursor` through fallible reads. -/
def ParserM (α : Type) : Type := Cursor → PResult (α × Cursor)

instance : Monad ParserM where
  pure a := fun c => .ok (a, c)
  bind m f := fun c =>
    match m c with
    | .ok (a, c') => f a c'
    | .err e => .err e
    | .fatal s => .fatal s

theorem ParserM.pure_def (a : α) (c : Cursor) :
    (pure a : ParserM α) c = .ok (a, c) := rfl

theorem ParserM.bind_def (m : ParserM α) (f : α → ParserM β) (c : Cursor) :
    (m >>= f) c =
      match m c with
      | .ok (a, c') => f a c'
      | .err e => .err e
      | .fatal s => .fatal s := rfl

/-- `read_u8`: one byte at the current position, advancing by 1; past the
end of the buffer this is the `UnexpectedEof` I/O error. -/
def readU8 : ParserM Nat := fun c =>
  if c.pos < c.size then
    .ok (c.data c.pos % 256, c.setPos (c.pos + 1))
  else
    .err "failed to fill whole buffer"

/-- `read_u16::<LittleEndian>`. -/
def readU16 : ParserM Nat := fun c =>
  if c.pos + 2 ≤ c.size then
    .ok (c.data c.pos % 256 + 256 * (c.data (c.pos + 1) % 256),
      c.setPos (c.pos + 2))
  else
    .err "failed to fill whole buffer"

/-- `read_u32::<LittleEndian>`. -/
def readU32 : ParserM Nat := fun c =>
  if c.pos + 4 ≤ c.size then
    .ok (c.data c.pos % 256 + 256 * (c.data (c.pos + 1) % 256)
        + 65536 * (c.data (c.pos + 2) % 256)
        + 16777216 * (c.data (c.pos + 3) % 256),
      c.setPos (c.pos + 4))
  else
    .err "failed to fill whole buffer"

/-- `read_u64::<LittleEndian>`. -/
def readU64 : ParserM Nat := fun c =>
  if c.pos + 8 ≤ c.size then
    .ok (c.data c.pos % 256 + 256 * (c.data (c.pos + 1) % 256)
        + 65536 * (c.data (c.pos + 2) % 256)
        + 16777216 * (c.data (c.pos + 3) % 256)
        + 4294967296 * (c.data (c.pos + 4) % 256)
        + 1099511627776 * (c.data (c.pos + 5) % 256)
        + 281474976710656 * (c.data (c.pos + 6) % 256)
        + 72057594037927936 * (c.data (c.pos + 7) % 256),
      c.setPos (c.pos + 8))
  else
    .err "failed to fill whole buffer"

/-- A parser that, whenever it succeeds, leaves the buffer untouched and
advances the position by exactly `n` bytes. -/
def StepsTo (m : ParserM α) (n : Nat) : Prop :=
  ∀ c a c', m c = .ok (a, c') →
    c'.data = c.data ∧ c'.size = c.size ∧ c'.pos = c.pos + n

theorem stepsTo_pure (a : α) : StepsTo (pure a : ParserM α) 0 := by
  intro c b c' h
  rw [ParserM.pure_def] at h
  cases h
  exact ⟨rfl, rfl, rfl⟩

theorem stepsTo_readU8 : StepsTo readU8 1 := by
  intro c a c' h
  unfold readU8 at h
  split at h
  · cases h; exact ⟨rfl, rfl, rfl⟩
  · cases h

theorem stepsTo_readU16 : StepsTo readU16 2 := by
  intro c a c' h
  unfold readU16 at h
  split at h
  · cases h; exact ⟨rfl, rfl, rfl⟩
  · cases h

theorem stepsTo_readU32 : StepsTo readU32 4 := by
  intro c a c' h
  unfold readU32 at h
  split at h
  · cases h; exact ⟨rfl, rfl, rfl⟩
  · cases h

theorem stepsTo_readU64 : StepsTo readU64 8 := by
  intro c a c' h
  unfold readU64 at h
  split at h
  · cases h; exact ⟨rfl, rfl, rfl⟩
  · cases h

theorem stepsTo_bind {m : ParserM α} {f : α → ParserM β} {n k : Nat}
    (hm : StepsTo m n) (hf : ∀ a, StepsTo (f a) k) :
    StepsTo (m >>= f) (n + k) := by
  intro c b c' h
  rw [ParserM.bind_def] at h
  cases hmc : m c with
  | ok p =>
    obtain ⟨a, c₁⟩ := p
    rw [hmc] at h
    obtain ⟨hd₁, hs₁, hp₁⟩ := hm c a c₁ hmc
    obtain ⟨hd₂, hs₂, hp₂⟩ := hf a c₁ b c' h
    exact ⟨hd₂.trans hd₁, hs₂.trans hs₁, by omega⟩
  | err e => rw [hmc] at h; cases h
  | fatal s => rw [hmc] at h; cases h

theorem stepsTo_congr {m : ParserM α} {n k : Nat}
    (h : StepsTo m n) (e : n = k) : StepsTo m k := e ▸ h

/-! ## DOS header -/

/-- Magic number for MS-DOS executable ("MZ"). -/
def DOS_MAGIC : Nat := 0x5a4d

/-- `DOSHeader`. Only `e_magic` and `e_lfanew` are ever assigned by
`DOSHeader::from_parser` or read downstream; the legacy fields of the Rust
struct stay at their `Default` value 0 and are omitted. -/
structure DOSHeader where
  e_magic : Nat
  e_lfanew : Nat
deriving DecidableEq

/-- `DOSHeader::from_parser`: read `e_magic`, check it, seek to 0x3C,
read `e_lfanew`. -/
def DOSHeader.fromParser : ParserM DOSHeader := fun c =>
  match readU16 c with
  | .err e => .err e
  | .fatal s => .fatal s
  | .ok (e_magic, c₁) =>
    if e_magic ≠ DOS_MAGIC then .err "Invalid DOS magic number"
    else
      match readU32 (c₁.setPos 0x3C) with
      | .err e => .err e
      | .fatal s => .fatal s
      | .ok (e_lfanew, c₂) => .ok ({ e_magic := e_magic, e_lfanew := e_lfanew }, c₂)

/-! ## COFF and NT headers -/

structure COFFHeader where
  machine : Nat
  number_of_sections : Nat
  time_date_stamp : Nat
  pointer_to_symbol_table : Nat
  number_of_symbols : Nat
  size_of_optional_header : Nat
  characteristics : Nat
deriving DecidableEq

/-- `COFFHeader::from_parser`. -/
def COFFHeader.fromParser : ParserM COFFHeader := do
  let machine ← readU16
  let number_of_sections ← readU16
  let time_date_stamp ← readU32
  let pointer_to_symbol_table ← readU32
  let number_of_symbols ← readU32
  let size_of_optional_header ← readU16
  let characteristics ← readU16
  pure { machine := machine, number_of_sections := number_of_sections,
         time_date_stamp := time_date_stamp,
         pointer_to_symbol_table := pointer_to_symbol_table,
         number_of_symbols := number_of_symbols,
         size_of_optional_header := size_of_optional_header,
         characteristics := characteristics }

def NT_PE_SIGNATURE : Nat := 0x4550

structure NTHeader where
  signature : Nat
  coff_header : COFFHeader
deriving DecidableEq

/-- `NTHeader::from_parser`: 4-byte signature check, then the COFF header. -/
def NTHeader.fromParser : ParserM NTHeader := fun c =>
  match readU32 c with
  | .err e => .err e
  | .fatal s => .fatal s
  | .ok (signature, c₁) =>
    if signature ≠ NT_PE_SIGNATURE then .err "Invalid PE signature in NT Header"
    else
      match COFFHeader.fromParser c₁ with
      | .err e => .err e
      | .fatal s => .fatal s
      | .ok (coff, c₂) => .ok ({ signature := signature, coff_header := coff }, c₂)

/-! ## Image data directories and the optional header -/

structure ImageDataDirectory where
  virtual_address : Nat
  size : Nat
deriving DecidableEq

def ImageDataDirectory.zero : ImageDataDirectory := { virtual_address := 0, size := 0 }

/-- `ImageDataDirectory::from_parser`. -/
def ImageDataDirectory.fromParser : ParserM ImageDataDirectory := do
  let virtual_address ← readU32
  let size ← readU32
  pure { virtual_address := virtual_address, size := size }

/-- Magic number for 32 bits PE. -/
def PE_FORMAT_32_MAGIC : Nat := 0x10b

/-- Magic number for 64 bits PE (PE32+). -/
def PE_FORMAT_64_MAGIC : Nat := 0x20b

structure OptionalHeader32 where
  magic : Nat
  major_linker_version : Nat
  minor_linker_version : Nat
  size_of_code : Nat
  size_of_initialized_data : Nat
  size_of_uninitialized_data : Nat
  address_of_entry_point : Nat
  base_of_code : Nat
  base_of_data : Nat
  image_base : Nat
  section_alignment : Nat
  file_alignement : Nat
  major_operating_system_version : Nat
  minor_operating_system_version : Nat
  major_image_version : Nat
  minor_image_version : Nat
  major_subsystem_version : Nat
  minor_subsystem_version : Nat
  win32_version_value : Nat
  size_of_image : Nat
  size_of_headers : Nat
  checksum : Nat
  subsystem : Nat
  dll_characteristics : Nat
  size_of_stack_reserve : Nat
  size_of_stack_commit : Nat
  size_of_heap_reserve : Nat
  size_of_heap_commit : Nat
  loader_flags : Nat
  number_of_rva_and_sizes : Nat
  export_table : ImageDataDirectory
  import_table : ImageDataDirectory
  resource_table : ImageDataDirectory
  exception_table : ImageDataDirectory
  certificate_table : ImageDataDirectory
  base_relocation_table : ImageDataDirectory
  debug : ImageDataDirectory
  architecture : ImageDataDirectory
  global_ptr : ImageDataDirectory
  tls_table : ImageDataDirectory
  load_config_table : ImageDataDirectory
  bound_import : ImageDataDirectory
  import_address_table : ImageDataDirectory
  delay_import_descriptor : ImageDataDirectory
  clr_runtime_header : ImageDataDirectory
  zero : ImageDataDirectory
deriving DecidableEq

/-- `OptionalHeader32::from_parser`: `image_base` and the four stack/heap
reserve/commit fields are 4-byte reads; `base_of_data` is present. -/
def OptionalHeader32.fromParser : ParserM OptionalHeader32 := do
  let magic ← readU16
  let major_linker_version ← readU8
  let minor_linker_version ← readU8
  let size_of_code ← readU32
  let size_of_initialized_data ← readU32
  let size_of_uninitialized_data ← readU32
  let address_of_entry_point ← readU32
  let base_of_code ← readU32
  let base_of_data ← readU32
  let image_base ← readU32
  let section_alignment ← readU32
  let file_alignement ← readU32
  let major_operating_system_version ← readU16
  let minor_operating_system_version ← readU16
  let major_image_version ← readU16
  let minor_image_version ← readU16
  let major_subsystem_version ← readU16
  let minor_subsystem_version ← readU16
  let win32_version_value ← readU32
  let size_of_image ← readU32
  let size_of_headers ← readU32
  let checksum ← readU32
  let subsystem ← readU16
  let dll_characteristics ← readU16
  let size_of_stack_reserve ← readU32
  let size_of_stack_commit ← readU32
  let size_of_heap_reserve ← readU32
  let size_of_heap_commit ← readU32
  let loader_flags ← readU32
  let number_of_rva_and_sizes ← readU32
  let export_table ← ImageDataDirectory.fromParser
  let import_table ← ImageDataDirectory.fromParser
  let resource_table ← ImageDataDirectory.fromParser
  let exception_table ← ImageDataDirectory.fromParser
  let certificate_table ← ImageDataDirectory.fromParser
  let base_relocation_table ← ImageDataDirectory.fromParser
  let debug ← ImageDataDirectory.fromParser
  let architecture ← ImageDataDirectory.fromParser
  let global_ptr ← ImageDataDirectory.fromParser
  let tls_table ← ImageDataDirectory.fromParser
  let load_config_table ← ImageDataDirectory.fromParser
  let bound_import ← ImageDataDirectory.fromParser
  let import_address_table ← ImageDataDirectory.fromParser
  let delay_import_descriptor ← ImageDataDirectory.fromParser
  let clr_runtime_header ← ImageDataDirectory.fromParser
  let zero ← ImageDataDirectory.fromParser
  pure { magic := magic, major_linker_version := major_linker_version,
         minor_linker_version := minor_linker_version, size_of_code := size_of_code,
         size_of_initialized_data := size_of_initialized_data,
         size_of_uninitialized_data := size_of_uninitialized_data,
         address_of_entry_point := address_of_entry_point,
         base_of_code := base_of_code, base_of_data := base_of_data,
         image_base := image_base, section_alignment := section_alignment,
         file_alignement := file_alignement,
         major_operating_system_version := major_operating_system_version,
         minor_operating_system_version := minor_operating_system_version,
         major_image_version := major_image_version,
         minor_image_version := minor_image_version,
         major_subsystem_version := major_subsystem_version,
         minor_subsystem_version := minor_subsystem_version,
         win32_version_value := win32_version_value,
         size_of_image := size_of_image, size_of_headers := size_of_headers,
         checksum := checksum, subsystem := subsystem,
         dll_characteristics := dll_characteristics,
         size_of_stack_reserve := size_of_stack_reserve,
         size_of_stack_commit := size_of_stack_commit,
         size_of_heap_reserve := size_of_heap_reserve,
         size_of_heap_commit := size_of_heap_commit,
         loader_flags := loader_flags,
         number_of_rva_and_sizes := number_of_rva_and_sizes,
         export_table := export_table, import_table := import_table,
         resource_table := resource_table, exception_table := exception_table,
         certificate_table := certificate_table,
         base_relocation_table := base_relocation_table, debug := debug,
         architecture := architecture, global_ptr := global_ptr,
         tls_table := tls_table, load_config_table := load_config_table,
         bound_import := bound_import, import_address_table := import_address_table,
         delay_import_descriptor := delay_import_descriptor,
         clr_runtime_header := clr_runtime_header, zero := zero }

structure OptionalHeader64 where
  magic : Nat
  major_linker_version : Nat
  minor_linker_version : Nat
  size_of_code : Nat
  size_of_initialized_data : Nat
  size_of_uninitialized_data : Nat
  address_of_entry_point : Nat
  base_of_code : Nat
  image_base : Nat
  section_alignment : Nat
  file_alignement : Nat
  major_operating_system_version : Nat
  minor_operating_system_version : Nat
  major_image_version : Nat
  minor_image_version : Nat
  major_subsystem_version : Nat
  minor_subsystem_version : Nat
  win32_version_value : Nat
  size_of_image : Nat
  size_of_headers : Nat
  checksum : Nat
  subsystem : Nat
  dll_characteristics : Nat
  size_of_stack_reserve : Nat
  size_of_stack_commit : Nat
  size_of_heap_reserve : Nat
  size_of_heap_commit : Nat
  loader_flags : Nat
  number_of_rva_and_sizes : Nat
  export_table : ImageDataDirectory
  import_table : ImageDataDirectory
  resource_table : ImageDataDirectory
  exception_table : ImageDataDirectory
  certificate_table : ImageDataDirectory
  base_relocation_table : ImageDataDirectory
  debug : ImageDataDirectory
  architecture : ImageDataDirectory
  global_ptr : ImageDataDirectory
  tls_table : ImageDataDirectory
  load_config_table : ImageDataDirectory
  bound_import : ImageDataDirectory
  import_address_table : ImageDataDirectory
  delay_import_descriptor : ImageDataDirectory
  clr_runtime_header : ImageDataDirectory
  zero : ImageDataDirectory
deriving DecidableEq

/-- `OptionalHeader64::from_parser`: no `base_of_data`; `image_base` and the
four stack/heap reserve/commit fields are 8-byte reads. -/
def OptionalHeader64.fromParser : ParserM OptionalHeader64 := do
  let magic ← readU16
  let major_linker_version ← readU8
  let minor_linker_version ← readU8
  let size_of_code ← readU32
  let size_of_initialized_data ← readU32
  let size_of_uninitialized_data ← readU32
  let address_of_entry_point ← readU32
  let base_of_code ← readU32
  let image_base ← readU64
  let section_alignment ← readU32
  let file_alignement ← readU32
  let major_operating_system_version ← readU16
  let minor_operating_system_version ← readU16
  let major_image_version ← readU16
  let minor_image_version ← readU16
  let major_subsystem_version ← readU16
  let minor_subsystem_version ← readU16
  let win32_version_value ← readU32
  let size_of_image ← readU32
  let size_of_headers ← readU32
  let checksum ← readU32
  let subsystem ← readU16
  let dll_characteristics ← readU16
  let size_of_stack_reserve ← readU64
  let size_of_stack_commit ← readU64
  let size_of_heap_reserve ← readU64
  let size_of_heap_commit ← readU64
  let loader_flags ← readU32
  let number_of_rva_and_sizes ← readU32
  let export_table ← ImageDataDirectory.fromParser
  let import_table ← ImageDataDirectory.fromParser
  let resource_table ← ImageDataDirectory.fromParser
  let exception_table ← ImageDataDirectory.fromParser
  let certificate_table ← ImageDataDirectory.fromParser
  let base_relocation_table ← ImageDataDirectory.fromParser
  let debug ← ImageDataDirectory.fromParser
  let architecture ← ImageDataDirectory.fromParser
  let global_ptr ← ImageDataDirectory.fromParser
  let tls_table ← ImageDataDirectory.fromParser
  let load_config_table ← ImageDataDirectory.fromParser
  let bound_import ← ImageDataDirectory.fromParser
  let import_address_table ← ImageDataDirectory.fromParser
  let delay_import_descriptor ← ImageDataDirectory.fromParser
  let clr_runtime_header ← ImageDataDirectory.fromParser
  let zero ← ImageDataDirectory.fromParser
  pure { magic := magic, major_linker_version := major_linker_version,
         minor_linker_version := minor_linker_version, size_of_code := size_of_code,
         size_of_initialized_data := size_of_initialized_data,
         size_of_uninitialized_data := size_of_uninitialized_data,
         address_of_entry_point := address_of_entry_point,
         base_of_code := base_of_code,
         image_base := image_base, section_alignment := section_alignment,
         file_alignement := file_alignement,
         major_operating_system_version := major_operating_system_version,
         minor_operating_system_version := minor_operating_system_version,
         major_image_version := major_image_version,
         minor_image_version := minor_image_version,
         major_subsystem_version := major_subsystem_version,
         minor_subsystem_version := minor_subsystem_version,
         win32_version_value := win32_version_value,
         size_of_image := size_of_image, size_of_headers := size_of_headers,
         checksum := checksum, subsystem := subsystem,
         dll_characteristics := dll_characteristics,
         size_of_stack_reserve := size_of_stack_reserve,
         size_of_stack_commit := size_of_stack_commit,
         size_of_heap_reserve := size_of_heap_reserve,
         size_of_heap_commit := size_of_heap_commit,
         loader_flags := loader_flags,
         number_of_rva_and_sizes := number_of_rva_and_sizes,
         export_table := export_table, import_table := import_table,
         resource_table := resource_table, exception_table := exception_table,
         certificate_table := certificate_table,
         base_relocation_table := base_relocation_table, debug := debug,
         architecture := architecture, global_ptr := global_ptr,
         tls_table := tls_table, load_config_table := load_config_table,
         bound_import := bound_import, import_address_table := import_address_table,
         delay_import_descriptor := delay_import_descriptor,
         clr_runtime_header := clr_runtime_header, zero := zero }

/-- `enum OptionalHeader { PE32(OptionalHeader32), PE64(OptionalHeader64) }`. -/
inductive OptionalHeader where
  | PE32 : OptionalHeader32 → OptionalHeader
  | PE64 : OptionalHeader64 → OptionalHeader
deriving DecidableEq

theorem stepsTo_idd : StepsTo ImageDataDirectory.fromParser 8 := by
  apply stepsTo_congr
  · unfold ImageDataDirectory.fromParser
    exact stepsTo_bind stepsTo_readU32 fun _ =>
      stepsTo_bind stepsTo_readU32 fun _ => stepsTo_pure _
  · norm_num

set_option maxRecDepth 200000

/-- Decoding the whole 32-bit optional header consumes exactly 224 bytes. -/
theorem stepsTo_oh32 : StepsTo OptionalHeader32.fromParser 224 := by
  apply stepsTo_congr
  · unfold OptionalHeader32.fromParser
    repeat
      first
      | exact stepsTo_readU8
      | exact stepsTo_readU16
      | exact stepsTo_readU32
      | exact stepsTo_readU64
      | exact stepsTo_idd
      | exact stepsTo_pure _
      | apply stepsTo_bind
      | intro _
  · norm_num

/-- Decoding the whole 64-bit optional header consumes exactly 240 bytes. -/
theorem stepsTo_oh64 : StepsTo OptionalHeader64.fromParser 240 := by
  apply stepsTo_congr
  · unfold OptionalHeader64.fromParser
    repeat
      first
      | exact stepsTo_readU8
      | exact stepsTo_readU16
      | exact stepsTo_readU32
      | exact stepsTo_readU64
      | exact stepsTo_idd
      | exact stepsTo_pure _
      | apply stepsTo_bind
      | intro _
  · norm_num

/-! ## UTF-8 and C-string reading helpers -/

/-- A UTF-8 continuation byte. -/
def utf8Cont (b : Nat) : Bool := 0x80 ≤ b && b ≤ 0xBF

/-- Validity check performed by `String::from_utf8` (standard UTF-8,
excluding overlong encodings, surrogates, and values above U+10FFFF). -/
def isValidUtf8 : List Nat → Bool
  | [] => true
  | b :: rest =>
    if b < 0x80 then isValidUtf8 rest
    else if 0xC2 ≤ b ∧ b ≤ 0xDF then
      match rest with
      | c₁ :: r => utf8Cont c₁ && isValidUtf8 r
      | [] => false
    else if b = 0xE0 then
      match rest with
      | c₁ :: c₂ :: r => (0xA0 ≤ c₁ && c₁ ≤ 0xBF) && utf8Cont c₂ && isValidUtf8 r
      | _ => false
    else if (0xE1 ≤ b ∧ b ≤ 0xEC) ∨ b = 0xEE ∨ b = 0xEF then
      match rest with
      | c₁ :: c₂ :: r => utf8Cont c₁ && utf8Cont c₂ && isValidUtf8 r
      | _ => false
    else if b = 0xED then
      match rest with
      | c₁ :: c₂ :: r => (0x80 ≤ c₁ && c₁ ≤ 0x9F) && utf8Cont c₂ && isValidUtf8 r
      | _ => false
    else if b = 0xF0 then
      match rest with
      | c₁ :: c₂ :: c₃ :: r =>
        (0x90 ≤ c₁ && c₁ ≤ 0xBF) && utf8Cont c₂ && utf8Cont c₃ && isValidUtf8 r
      | _ => false
    else if 0xF1 ≤ b ∧ b ≤ 0xF3 then
      match rest with
      | c₁ :: c₂ :: c₃ :: r => utf8Cont c₁ && utf8Cont c₂ && utf8Cont c₃ && isValidUtf8 r
      | _ => false
    else if b = 0xF4 then
      match rest with
      | c₁ :: c₂ :: c₃ :: r =>
        (0x80 ≤ c₁ && c₁ ≤ 0x8F) && utf8Cont c₂ && utf8Cont c₃ && isValidUtf8 r
      | _ => false
    else false

/-- The `loop { read_u8; if c == 0 break; push c }` pattern: bytes up to
but excluding a NUL terminator, consuming the terminator. The fuel argument
is `size - pos`: once it reaches 0 the position is at or past the end of
the buffer, which is exactly when `read_u8` fails. -/
def readCStringAux (fuel : Nat) : Cursor → PResult (List Nat × Cursor) :=
  Nat.rec (motive := fun _ => Cursor → PResult (List Nat × Cursor))
    (fun _ => .err "failed to fill whole buffer")
    (fun _ ih c =>
      match readU8 c with
      | .err e => .err e
      | .fatal s => .fatal s
      | .ok (b, c') =>
        if b = 0 then .ok ([], c')
        else
          match ih c' with
          | .ok (bs, c'') => .ok (b :: bs, c'')
          | .err e => .err e
          | .fatal s => .fatal s)
    fuel

theorem readCStringAux_zero (c : Cursor) :
    readCStringAux 0 c = .err "failed to fill whole buffer" := rfl

theorem readCStringAux_succ (fuel : Nat) (c : Cursor) :
    readCStringAux (fuel + 1) c =
      match readU8 c with
      | .err e => .err e
      | .fatal s => .fatal s
      | .ok (b, c') =>
        if b = 0 then .ok ([], c')
        else
          match readCStringAux fuel c' with
          | .ok (bs, c'') => .ok (b :: bs, c'')
          | .err e => .err e
          | .fatal s => .fatal s := rfl

/-- Read a NUL-terminated byte string at the current position. -/
def readCString (c : Cursor) : PResult (List Nat × Cursor) :=
  readCStringAux (c.size - c.pos) c

/-! ## Section headers -/

structure SectionHeader where
  name : List Nat
  virtual_size : Nat
  virtual_address : Nat
  size_of_raw_data : Nat
  ptr_to_raw_data : Nat
  pointer_to_relocations : Nat
  pointer_to_line_numbers : Nat
  number_of_relocations : Nat
  number_of_line_numbers : Nat
  characteristics : Nat
deriving DecidableEq

/-- `SectionHeader::new()` / `Default`. -/
def SectionHeader.zero : SectionHeader :=
  { name := [], virtual_size := 0, virtual_address := 0, size_of_raw_data := 0,
    ptr_to_raw_data := 0, pointer_to_relocations := 0, pointer_to_line_numbers := 0,
    number_of_relocations := 0, number_of_line_numbers := 0, characteristics := 0 }

/-- The bytes of the sentinel name string "empty". -/
def emptySectionName : List Nat := [101, 109, 112, 116, 121]

/-- The `for _ in 0..7 { let c = read_u8()?; if c == 0 continue; push }`
loop: reads exactly `n` bytes, keeping the non-NUL ones. -/
def readNameRest (n : Nat) : Cursor → PResult (List Nat × Cursor) :=
  Nat.rec (motive := fun _ => Cursor → PResult (List Nat × Cursor))
    (fun c => .ok ([], c))
    (fun _ ih c =>
      match readU8 c with
      | .err e => .err e
      | .fatal s => .fatal s
      | .ok (b, c') =>
        match ih c' with
        | .ok (bs, c'') => .ok ((if b = 0 then bs else b :: bs), c'')
        | .err e => .err e
        | .fatal s => .fatal s)
    n

/-- `SectionHeader::from_parser`: dispatch on the first name byte
('/' hits a `todo!` panic; 0x00 yields the "empty" sentinel and skips the
remaining 39 bytes), then the fixed fields. -/
def SectionHeader.fromParser : ParserM SectionHeader := fun c =>
  match readU8 c with
  | .err e => .err e
  | .fatal s => .fatal s
  | .ok (first_name_byte, c₁) =>
    if first_name_byte = 0x2F then
      .fatal "Need to implement section header name finding in string table"
    else if first_name_byte = 0x0 then
      .ok ({ SectionHeader.zero with name := emptySectionName }, c₁.setPos (c₁.pos + 39))
    else
      match readNameRest 7 c₁ with
      | .err e => .err e
      | .fatal s => .fatal s
      | .ok (rest_bytes, c₂) =>
        let name_buffer := first_name_byte :: rest_bytes
        if isValidUtf8 name_buffer then
          (show ParserM SectionHeader from do
            let virtual_size ← readU32
            let virtual_address ← readU32
            let size_of_raw_data ← readU32
            let ptr_to_raw_data ← readU32
            let pointer_to_relocations ← readU32
            let pointer_to_line_numbers ← readU32
            let number_of_relocations ← readU16
            let number_of_line_numbers ← readU16
            let characteristics ← readU32
            pure { name := name_buffer, virtual_size := virtual_size,
                   virtual_address := virtual_address,
                   size_of_raw_data := size_of_raw_data,
                   ptr_to_raw_data := ptr_to_raw_data,
                   pointer_to_relocations := pointer_to_relocations,
                   pointer_to_line_numbers := pointer_to_line_numbers,
                   number_of_relocations := number_of_relocations,
                   number_of_line_numbers := number_of_line_numbers,
                   characteristics := characteristics }) c₂
        else .fatal "Invalid section name found in PE"

/-- `struct Section { header: SectionHeader }`. -/
structure Section where
  header : SectionHeader
deriving DecidableEq

/-! ## Import table structures -/

structure ImageImportDescriptor where
  import_lookup_table_rva : Nat
  time_date_stamp : Nat
  forwarder_chain : Nat
  name_rva : Nat
  import_address_table_rva : Nat
deriving DecidableEq

def ImageImportDescriptor.zero : ImageImportDescriptor :=
  { import_lookup_table_rva := 0, time_date_stamp := 0, forwarder_chain := 0,
    name_rva := 0, import_address_table_rva := 0 }

/-- `ImageImportDescriptor::from_parser`: five u32 fields, 20 bytes. -/
def ImageImportDescriptor.fromParser : ParserM ImageImportDescriptor := do
  let import_lookup_table_rva ← readU32
  let time_date_stamp ← readU32
  let forwarder_chain ← readU32
  let name_rva ← readU32
  let import_address_table_rva ← readU32
  pure { import_lookup_table_rva := import_lookup_table_rva,
         time_date_stamp := time_date_stamp, forwarder_chain := forwarder_chain,
         name_rva := name_rva, import_address_table_rva := import_address_table_rva }

/-- `ImageImportDescriptor::is_zeroed_out`. -/
def ImageImportDescriptor.is_zeroed_out (d : ImageImportDescriptor) : Bool :=
  d.import_lookup_table_rva == 0 && d.time_date_stamp == 0
    && d.forwarder_chain == 0 && d.name_rva == 0
    && d.import_address_table_rva == 0

structure ImportLookupEntry where
  by_ordinal : Bool
  ordinal_number : Nat
  hint_name_table_rva : Nat
deriving DecidableEq

/-- `ImportLookupEntry::from_parser`. The source masks the raw field with
`0x80000000` (resp. `0x8000000000000000`) for the ordinal flag — modelled
as a top-bit test — with `0xFFFF` (= keep `% 2^16`) for the ordinal, and
with `0x7FFFFFF` (= keep `% 2^27`; note the source constant has seven `F`s,
not eight) for the hint/name RVA; the unset member of the tagged union
stays at its `Default` value 0. -/
def ImportLookupEntry.fromParser (is_32_bits : Bool) : ParserM ImportLookupEntry := fun c =>
  if is_32_bits then
    match readU32 c with
    | .err e => .err e
    | .fatal s => .fatal s
    | .ok (data, c') =>
      let by_ordinal := data.testBit 31
      if by_ordinal then
        .ok ({ by_ordinal := true, ordinal_number := data % 0x10000,
               hint_name_table_rva := 0 }, c')
      else
        .ok ({ by_ordinal := false, ordinal_number := 0,
               hint_name_table_rva := data % 0x8000000 }, c')
  else
    match readU64 c with
    | .err e => .err e
    | .fatal s => .fatal s
    | .ok (data, c') =>
      let by_ordinal := data.testBit 63
      if by_ordinal then
        .ok ({ by_ordinal := true, ordinal_number := data % 0x10000,
               hint_name_table_rva := 0 }, c')
      else
        .ok ({ by_ordinal := false, ordinal_number := 0,
               hint_name_table_rva := data % 0x8000000 }, c')

structure HintNameEntry where
  hint : Nat
  name : List Nat
  pad : Bool
deriving DecidableEq

/-- `HintNameEntry::from_parser`: a 16-bit hint, a NUL-terminated name, and
one extra pad byte consumed exactly when `name_buffer.len() % 2 != 0`
(the name length NOT counting its terminator is odd); then the
`String::from_utf8(..).expect(..)` validity check. -/
def HintNameEntry.fromParser : ParserM HintNameEntry := fun c =>
  match readU16 c with
  | .err e => .err e
  | .fatal s => .fatal s
  | .ok (hint, c₁) =>
    match readCString c₁ with
    | .err e => .err e
    | .fatal s => .fatal s
    | .ok (name_buffer, c₂) =>
      if name_buffer.length % 2 ≠ 0 then
        match readU8 c₂ with
        | .err e => .err e
        | .fatal s => .fatal s
        | .ok (_, c₃) =>
          if isValidUtf8 name_buffer then
            .ok ({ hint := hint, name := name_buffer, pad := true }, c₃)
          else .fatal "Invalid name found in Hint/Name Table"
      else
        if isValidUtf8 name_buffer then
          .ok ({ hint := hint, name := name_buffer, pad := false }, c₂)
        else .fatal "Invalid name found in Hint/Name Table"

/-! ## The PE aggregate -/

structure PEHeader where
  dos : DOSHeader
  nt : NTHeader
  optional : OptionalHeader
deriving DecidableEq

/-- `struct PE`. The section map (`HashMap<String, Section>`) is modelled
as the list of its values; its iteration order is arbitrary, which the
RVA-translation theorems account for by quantifying over permutations. -/
structure PE where
  header : PEHeader
  sections : List Section
  import_descriptors : List ImageImportDescriptor
  dll_names : List (List Nat)
  data : Nat → Nat
  size : Nat

def PE.is_32_bits (pe : PE) : Bool :=
  match pe.header.optional with
  | .PE32 _ => true
  | .PE64 _ => false

def PE.get_size_of_optional_header (pe : PE) : Nat :=
  pe.header.nt.coff_header.size_of_optional_header

def PE.get_number_of_sections (pe : PE) : Nat :=
  pe.header.nt.coff_header.number_of_sections

def PE.get_import_table_idd (pe : PE) : ImageDataDirectory :=
  match pe.header.optional with
  | .PE32 header => header.import_table
  | .PE64 header => header.import_table

/-- The linear scan of `PE::convert_rva_to_file_offset` over the section
values. `start + virtual_size` is a `u32` addition in the source, hence
the explicit wrap. -/
def sectionScan : List Section → Nat → Option Nat
  | [], _ => none
  | s :: rest, rva =>
    let start := s.header.virtual_address
    let endv := (start + s.header.virtual_size) % 4294967296
    if start ≤ rva ∧ rva < endv then
      some (s.header.ptr_to_raw_data + (rva - start))
    else sectionScan rest rva

/-- `PE::convert_rva_to_file_offset`. -/
def PE.convert_rva_to_file_offset (pe : PE) (rva : Nat) : Option Nat :=
  sectionScan pe.sections rva

/-- A section contains an RVA exactly when the scan's range test accepts
it: `virtual_address <= rva < virtual_address + virtual_size` with the
`u32` wrap of the source's addition. -/
def Section.containsRva (s : Section) (rva : Nat) : Prop :=
  s.header.virtual_address ≤ rva ∧
    rva < (s.header.virtual_address + s.header.virtual_size) % 4294967296

instance (s : Section) (rva : Nat) : Decidable (s.containsRva rva) :=
  inferInstanceAs (Decidable (_ ∧ _))

/-! ## The optional-header dispatch and the section-table seek -/

/-- `u64` wrapping addition. -/
def u64add (a b : Nat) : Nat := (a + b) % 18446744073709551616

/-- `u64` wrapping subtraction (for `a`, `b` below `2^64`). -/
def u64sub (a b : Nat) : Nat := (a + 18446744073709551616 - b) % 18446744073709551616

/-- Lines 900–932 of `parse_pe`: read the optional-header magic, seek back
2 bytes, decode the matching variant (or fail), then
`cursor.set_position(cursor.position() + (size_of_optional_header - optional_size))`
— a `u64` wrapping subtraction and addition — so the section table is read
at the declared offset. -/
def parseOptionalHeaderAndSeek (size_of_optional_header : Nat) : ParserM OptionalHeader := fun c =>
  match readU16 c with
  | .err e => .err e
  | .fatal s => .fatal s
  | .ok (optional_magic, c₁) =>
    let c₂ := c₁.setPos (c₁.pos - 2)
    let start_of_optional_position := c₂.pos
    let parsed : PResult (OptionalHeader × Cursor) :=
      if optional_magic = PE_FORMAT_32_MAGIC then
        match OptionalHeader32.fromParser c₂ with
        | .ok (h, c') => .ok (.PE32 h, c')
        | .err e => .err e
        | .fatal s => .fatal s
      else if optional_magic = PE_FORMAT_64_MAGIC then
        match OptionalHeader64.fromParser c₂ with
        | .ok (h, c') => .ok (.PE64 h, c')
        | .err e => .err e
        | .fatal s => .fatal s
      else .err "Invalid PE optional header magic"
    match parsed with
    | .err e => .err e
    | .fatal s => .fatal s
    | .ok (optional, c₃) =>
      let optional_size := c₃.pos - start_of_optional_position
      .ok (optional, c₃.setPos (u64add c₃.pos (u64sub size_of_optional_header optional_size)))

/-! ## Import descriptor and DLL-name parsing -/

/-- The descriptor loop of `parse_import_descriptors`: decode records (the
`from_parser` result goes through `.expect(..)`, so a failed read panics)
until an all-zero terminator, or until the accumulated count exceeds 256.
`budget` is `256 - (number of descriptors already kept)`, so the
`descriptors.len() > 256` break fires exactly when it reaches zero: the
loop keeps at most 257 records. -/
def importDescriptorLoop (budget : Nat) : Cursor → PResult (List ImageImportDescriptor × Cursor) :=
  Nat.rec (motive := fun _ => Cursor → PResult (List ImageImportDescriptor × Cursor))
    (fun c =>
      -- budget exhausted: `descriptors.len() > 256` breaks right after the push
      match (ImageImportDescriptor.fromParser c).expectWith
          "Cannot parse ImageImportDescriptor from the Import Table" with
      | .err e => .err e
      | .fatal s => .fatal s
      | .ok (descriptor, c') =>
        if descriptor.is_zeroed_out then .ok ([], c')
        else .ok ([descriptor], c'))
    (fun _ ih c =>
      match (ImageImportDescriptor.fromParser c).expectWith
          "Cannot parse ImageImportDescriptor from the Import Table" with
      | .err e => .err e
      | .fatal s => .fatal s
      | .ok (descriptor, c') =>
        if descriptor.is_zeroed_out then .ok ([], c')
        else
          match ih c' with
          | .ok (ds, c'') => .ok (descriptor :: ds, c'')
          | .err e => .err e
          | .fatal s => .fatal s)
    budget

theorem importDescriptorLoop_zero (c : Cursor) :
    importDescriptorLoop 0 c =
      match (ImageImportDescriptor.fromParser c).expectWith
          "Cannot parse ImageImportDescriptor from the Import Table" with
      | .err e => .err e
      | .fatal s => .fatal s
      | .ok (descriptor, c') =>
        if descriptor.is_zeroed_out then .ok ([], c')
        else .ok ([descriptor], c') := rfl

theorem importDescriptorLoop_succ (b : Nat) (c : Cursor) :
    importDescriptorLoop (b + 1) c =
      match (ImageImportDescriptor.fromParser c).expectWith
          "Cannot parse ImageImportDescriptor from the Import Table" with
      | .err e => .err e
      | .fatal s => .fatal s
      | .ok (descriptor, c') =>
        if descriptor.is_zeroed_out then .ok ([], c')
        else
          match importDescriptorLoop b c' with
          | .ok (ds, c'') => .ok (descriptor :: ds, c'')
          | .err e => .err e
          | .fatal s => .fatal s := rfl

/-- `parse_import_descriptors`: translate the import directory's RVA —
returning an empty list if it does not translate — then run the bounded
descriptor loop from the translated offset. -/
def parse_import_descriptors (pe : PE) (c : Cursor) :
    PResult (List ImageImportDescriptor × Cursor) :=
  match pe.convert_rva_to_file_offset (pe.get_import_table_idd).virtual_address with
  | none => .ok ([], c)
  | some file_offset => importDescriptorLoop 256 (c.setPos file_offset)

/-- The per-descriptor body of `parse_dll_names`: translate `name_rva`
(`ok_or(..)?`, an error result if it does not translate), read the
NUL-terminated name, run it through `String::from_utf8(..).expect(..)`. -/
def parseDllNamesLoop (pe : PE) : List ImageImportDescriptor → Cursor → PResult (List (List Nat) × Cursor)
  | [], c => .ok ([], c)
  | d :: rest, c =>
    match pe.convert_rva_to_file_offset d.name_rva with
    | none => .err "Import Descriptor Name RVA does not map to any section"
    | some off =>
      match readCString (c.setPos off) with
      | .err e => .err e
      | .fatal s => .fatal s
      | .ok (name_buffer, c') =>
        if isValidUtf8 name_buffer then
          match parseDllNamesLoop pe rest c' with
          | .ok (names, c'') => .ok (name_buffer :: names, c'')
          | .err e => .err e
          | .fatal s => .fatal s
        else .fatal "Invalid name found in import names"

/-- `parse_dll_names`. -/
def parse_dll_names (pe : PE) (c : Cursor) : PResult (List (List Nat) × Cursor) :=
  parseDllNamesLoop pe pe.import_descriptors c

/-! ## Top-level parse -/

/-- `HashMap::insert` keyed by section name: last write wins. -/
def insertSection (sections : List Section) (s : Section) : List Section :=
  sections.filter (fun t => !(t.header.name == s.header.name)) ++ [s]

/-- The `for _ in 0..pe.get_number_of_sections()` section-table loop. -/
def sectionLoop : Nat → List Section → Cursor → PResult (List Section × Cursor)
  | 0, acc, c => .ok (acc, c)
  | n + 1, acc, c =>
    match SectionHeader.fromParser c with
    | .err e => .err e
    | .fatal s => .fatal s
    | .ok (section_header, c') =>
      sectionLoop n (insertSection acc { header := section_header }) c'

/-- `str::ends_with`. -/
def endsWith (s suffix : List Char) : Bool := suffix.isSuffixOf s

/-- `parse_pe`. The file system is represented by the `fileExists` flag
(the `file_path.exists()` check) and by the file's bytes, which stand for
the result of `std::fs::read`; the path, a Rust `&str` after the
`to_str()` conversion, is a character list. -/
def parse_pe (file_path : List Char) (fileExists : Bool) (file_bytes : Nat → Nat)
    (file_size : Nat) : PResult PE :=
  if !fileExists then .err "File does not exist"
  else if !(endsWith file_path ".exe".toList) && !(endsWith file_path ".dll".toList) then
    .err "File is not a Portable Executable (.exe | .dll)"
  else
    let c : Cursor := { data := file_bytes, size := file_size, pos := 0 }
    match DOSHeader.fromParser c with
    | .err e => .err e
    | .fatal s => .fatal s
    | .ok (dos_header, c₁) =>
      match NTHeader.fromParser (c₁.setPos dos_header.e_lfanew) with
      | .err e => .err e
      | .fatal s => .fatal s
      | .ok (nt_header, c₂) =>
        match parseOptionalHeaderAndSeek nt_header.coff_header.size_of_optional_header c₂ with
        | .err e => .err e
        | .fatal s => .fatal s
        | .ok (optional, c₃) =>
          let header : PEHeader := { dos := dos_header, nt := nt_header, optional := optional }
          match sectionLoop nt_header.coff_header.number_of_sections [] c₃ with
          | .err e => .err e
          | .fatal s => .fatal s
          | .ok (sections, c₄) =>
            let pe₀ : PE := { header := header, sections := sections,
                              import_descriptors := [], dll_names := [],
                              data := file_bytes, size := file_size }
            match parse_import_descriptors pe₀ c₄ with
            | .err e => .err e
            | .fatal s => .fatal s
            | .ok (descriptors, c₅) =>
              let pe₁ : PE := { pe₀ with import_descriptors := descriptors }
              match parse_dll_names pe₁ c₅ with
              | .err e => .err e
              | .fatal s => .fatal s
              | .ok (dlls, _) => .ok { pe₁ with dll_names := dlls }

/-! ## Structure defaults (`#[derive(Default)]` / `::new()` in the source) -/

def COFFHeader.zero : COFFHeader :=
  { machine := 0, number_of_sections := 0, time_date_stamp := 0,
    pointer_to_symbol_table := 0, number_of_symbols := 0,
    size_of_optional_header := 0, characteristics := 0 }

def NTHeader.zero : NTHeader := { signature := 0, coff_header := COFFHeader.zero }

def DOSHeader.zero : DOSHeader := { e_magic := 0, e_lfanew := 0 }

def oh64Zero : OptionalHeader64 :=
  { magic := 0, major_linker_version := 0, minor_linker_version := 0,
    size_of_code := 0, size_of_initialized_data := 0, size_of_uninitialized_data := 0,
    address_of_entry_point := 0, base_of_code := 0, image_base := 0,
    section_alignment := 0, file_alignement := 0, major_operating_system_version := 0,
    minor_operating_system_version := 0, major_image_version := 0, minor_image_version := 0,
    major_subsystem_version := 0, minor_subsystem_version := 0, win32_version_value := 0,
    size_of_image := 0, size_of_headers := 0, checksum := 0, subsystem := 0,
    dll_characteristics := 0, size_of_stack_reserve := 0, size_of_stack_commit := 0,
    size_of_heap_reserve := 0, size_of_heap_commit := 0, loader_flags := 0,
    number_of_rva_and_sizes := 0, export_table := ImageDataDirectory.zero,
    import_table := ImageDataDirectory.zero, resource_table := ImageDataDirectory.zero,
    exception_table := ImageDataDirectory.zero, certificate_table := ImageDataDirectory.zero,
    base_relocation_table := ImageDataDirectory.zero, debug := ImageDataDirectory.zero,
    architecture := ImageDataDirectory.zero, global_ptr := ImageDataDirectory.zero,
    tls_table := ImageDataDirectory.zero, load_config_table := ImageDataDirectory.zero,
    bound_import := ImageDataDirectory.zero, import_address_table := ImageDataDirectory.zero,
    delay_import_descriptor := ImageDataDirectory.zero,
    clr_runtime_header := ImageDataDirectory.zero, zero := ImageDataDirectory.zero }

/-- `Default for OptionalHeader` picks the `PE64` variant in the source. -/
def PEHeader.zero : PEHeader :=
  { dos := DOSHeader.zero, nt := NTHeader.zero, optional := .PE64 oh64Zero }

/-! ## RVA translation: totality, determinism, and the per-section formula -/

theorem sectionScan_cons (s : Section) (rest : List Section) (rva : Nat) :
    sectionScan (s :: rest) rva =
      if s.containsRva rva then
        some (s.header.ptr_to_raw_data + (rva - s.header.virtual_address))
      else sectionScan rest rva := rfl

/-- No RVA is inside two distinct sections of the list: the section map of
a PE whose sections are non-overlapping. -/
def DisjointSections (l : List Section) : Prop :=
  l.Pairwise (fun a b => ∀ r : Nat, ¬(a.containsRva r ∧ b.containsRva r))

theorem sectionScan_found : ∀ (l : List Section), DisjointSections l →
    ∀ s ∈ l, ∀ rva : Nat, s.containsRva rva →
    sectionScan l rva = some (s.header.ptr_to_raw_data + (rva - s.header.virtual_address)) := by
  intro l
  induction l with
  | nil => intro _ s hs; cases hs
  | cons t rest ih =>
    intro hdisj s hs rva hc
    rcases List.pairwise_cons.mp hdisj with ⟨hhead, htail⟩
    rw [sectionScan_cons]
    rcases List.mem_cons.mp hs with rfl | hmem
    · rw [if_pos hc]
    · have ht : ¬ t.containsRva rva := fun htc => hhead s hmem rva ⟨htc, hc⟩
      rw [if_neg ht]
      exact ih htail s hmem rva hc

theorem sectionScan_absent : ∀ (l : List Section) (rva : Nat),
    (∀ s ∈ l, ¬ s.containsRva rva) → sectionScan l rva = none := by
  intro l
  induction l with
  | nil => intro _ _; rfl
  | cons t rest ih =>
    intro rva hnone
    rw [sectionScan_cons, if_neg (hnone t (List.mem_cons_self t rest))]
    exact ih rva fun s hs => hnone s (List.mem_cons_of_mem t hs)

theorem disjointSections_perm {l l' : List Section} (h : l.Perm l')
    (hdisj : DisjointSections l) : DisjointSections l' := by
  refine (List.Perm.pairwise_iff ?_ h).mp hdisj
  intro a b hab r ⟨hbr, har⟩
  exact hab r ⟨har, hbr⟩

theorem sectionScan_perm (l l' : List Section) (h : l.Perm l')
    (hdisj : DisjointSections l) (rva : Nat) :
    sectionScan l rva = sectionScan l' rva := by
  have hdisj' : DisjointSections l' := disjointSections_perm h hdisj
  by_cases hc : ∃ s ∈ l, s.containsRva rva
  · obtain ⟨s, hs, hcon⟩ := hc
    rw [sectionScan_found l hdisj s hs rva hcon,
        sectionScan_found l' hdisj' s (h.mem_iff.mp hs) rva hcon]
  · push_neg at hc
    rw [sectionScan_absent l rva hc,
        sectionScan_absent l' rva fun s hs => hc s (h.mem_iff.mpr hs)]

/-- Claim C1: for every decoded PE whose sections are non-overlapping,
`convert_rva_to_file_offset` is total and deterministic: an RVA inside a
section's virtual range maps to
`some (ptr_to_raw_data + (rva - virtual_address))`, an RVA inside no
section maps to `none`, and the result is independent of the (arbitrary)
iteration order of the section map — so the scan never faults. -/
theorem claim_C1_convert_rva (pe : PE) (rva : Nat)
    (hdisj : DisjointSections pe.sections) :
    (∀ s ∈ pe.sections, s.containsRva rva →
        pe.convert_rva_to_file_offset rva =
          some (s.header.ptr_to_raw_data + (rva - s.header.virtual_address))) ∧
    ((∀ s ∈ pe.sections, ¬ s.containsRva rva) →
        pe.convert_rva_to_file_offset rva = none) ∧
    (∀ pe' : PE, pe.sections.Perm pe'.sections →
        pe'.convert_rva_to_file_offset rva = pe.convert_rva_to_file_offset rva) := by
  refine ⟨?_, ?_, ?_⟩
  · intro s hs hc
    exact sectionScan_found pe.sections hdisj s hs rva hc
  · intro hnone
    exact sectionScan_absent pe.sections rva hnone
  · intro pe' hperm
    exact (sectionScan_perm pe.sections pe'.sections hperm hdisj rva).symm

def c1secA : Section :=
  { header := { SectionHeader.zero with
      name := [65], virtual_address := 0, virtual_size := 16, ptr_to_raw_data := 100 } }

def c1secB : Section :=
  { header := { SectionHeader.zero with
      name := [66], virtual_address := 16, virtual_size := 16, ptr_to_raw_data := 200 } }

def c1pe : PE :=
  { header := PEHeader.zero, sections := [c1secA, c1secB],
    import_descriptors := [], dll_names := [], data := fun _ => 0, size := 0 }

def c1peSwapped : PE := { c1pe with sections := [c1secB, c1secA] }

theorem c1pe_disjoint : DisjointSections c1pe.sections := by
  refine List.Pairwise.cons ?_
    (List.Pairwise.cons (fun b hb => absurd hb (List.not_mem_nil b)) List.Pairwise.nil)
  intro b hb r hr
  rw [List.mem_singleton] at hb
  subst hb
  simp only [Section.containsRva, c1secA, c1secB, SectionHeader.zero] at hr
  omega

/-- Witness for C1 at a concrete two-section PE: an RVA inside the second
section, an RVA inside no section, and the same scan on the permuted map. -/
theorem claim_C1_witness :
    c1pe.convert_rva_to_file_offset 20 = some (200 + (20 - 16)) ∧
    c1pe.convert_rva_to_file_offset 100 = none ∧
    c1peSwapped.convert_rva_to_file_offset 20 = c1pe.convert_rva_to_file_offset 20 := by
  refine ⟨?_, ?_, ?_⟩
  · exact (claim_C1_convert_rva c1pe 20 c1pe_disjoint).1 c1secB (by decide) (by decide)
  · exact (claim_C1_convert_rva c1pe 100 c1pe_disjoint).2.1 (by decide)
  · exact (claim_C1_convert_rva c1pe 20 c1pe_disjoint).2.2 c1peSwapped (List.Perm.swap c1secB c1secA [])

/-! ## C2, C3: concrete decodes of Hint/Name and import-lookup entries -/

def c2dataEven : Nat → Nat := fun i => [0, 0, 97, 98, 0].getD i 0

def c2dataOdd : Nat → Nat := fun i => [0, 0, 97, 0, 9].getD i 0

/-- Claim C2 evaluated at the failing inputs. Name "ab": encoded length
including the terminator is 3 (odd), so per the claim one pad byte must be
consumed (cursor at 6, pad recorded); the code consumes none (cursor at 5,
pad false). Name "a": encoded length including the terminator is 2 (even),
so per the claim no pad byte is consumed; the code consumes one. The
code's parity test `name_buffer.len() % 2 != 0` ignores the terminator and
is inverted relative to the 2-byte alignment the format mandates. -/
theorem claim_C2_pad_parity :
    HintNameEntry.fromParser { data := c2dataEven, size := 5, pos := 0 } =
      .ok ({ hint := 0, name := [97, 98], pad := false },
           { data := c2dataEven, size := 5, pos := 5 }) ∧
    HintNameEntry.fromParser { data := c2dataOdd, size := 5, pos := 0 } =
      .ok ({ hint := 0, name := [97], pad := true },
           { data := c2dataOdd, size := 5, pos := 5 }) := ⟨rfl, rfl⟩

def c3data : Nat → Nat := fun i => if i = 3 then 16 else 0

/-- Claim C3 evaluated at a failing input. The raw 32-bit field is
0x10000000: the top bit is clear, so per the claim the entry is by-name
with `hint_name_table_rva` = low 31 bits = 0x10000000; the code masks with
0x7FFFFFF (27 bits, a missing `F`) and stores 0. The 64-bit path uses the
same 27-bit mask. -/
theorem claim_C3_lookup_mask :
    ImportLookupEntry.fromParser true { data := c3data, size := 4, pos := 0 } =
      .ok ({ by_ordinal := false, ordinal_number := 0, hint_name_table_rva := 0 },
           { data := c3data, size := 4, pos := 4 }) ∧
    ImportLookupEntry.fromParser false { data := c3data, size := 8, pos := 0 } =
      .ok ({ by_ordinal := false, ordinal_number := 0, hint_name_table_rva := 0 },
           { data := c3data, size := 8, pos := 8 }) := ⟨rfl, rfl⟩

/-! ## C4: the 256-record cap of the import descriptor scan -/

def oh32Zero : OptionalHeader32 :=
  { magic := 0, major_linker_version := 0, minor_linker_version := 0,
    size_of_code := 0, size_of_initialized_data := 0, size_of_uninitialized_data := 0,
    address_of_entry_point := 0, base_of_code := 0, base_of_data := 0, image_base := 0,
    section_alignment := 0, file_alignement := 0, major_operating_system_version := 0,
    minor_operating_system_version := 0, major_image_version := 0, minor_image_version := 0,
    major_subsystem_version := 0, minor_subsystem_version := 0, win32_version_value := 0,
    size_of_image := 0, size_of_headers := 0, checksum := 0, subsystem := 0,
    dll_characteristics := 0, size_of_stack_reserve := 0, size_of_stack_commit := 0,
    size_of_heap_reserve := 0, size_of_heap_commit := 0, loader_flags := 0,
    number_of_rva_and_sizes := 0, export_table := ImageDataDirectory.zero,
    import_table := ImageDataDirectory.zero, resource_table := ImageDataDirectory.zero,
    exception_table := ImageDataDirectory.zero, certificate_table := ImageDataDirectory.zero,
    base_relocation_table := ImageDataDirectory.zero, debug := ImageDataDirectory.zero,
    architecture := ImageDataDirectory.zero, global_ptr := ImageDataDirectory.zero,
    tls_table := ImageDataDirectory.zero, load_config_table := ImageDataDirectory.zero,
    bound_import := ImageDataDirectory.zero, import_address_table := ImageDataDirectory.zero,
    delay_import_descriptor := ImageDataDirectory.zero,
    clr_runtime_header := ImageDataDirectory.zero, zero := ImageDataDirectory.zero }

theorem stepsTo_iid : StepsTo ImageImportDescriptor.fromParser 20 := by
  apply stepsTo_congr
  · unfold ImageImportDescriptor.fromParser
    repeat
      first
      | exact stepsTo_readU32
      | exact stepsTo_pure _
      | apply stepsTo_bind
      | intro _
  · norm_num

/-- Does a 20-byte import descriptor record decode successfully at buffer
position `p`, and is it not the all-zero terminator? -/
def nonzeroRecordAt (c : Cursor) (p : Nat) : Bool :=
  match ImageImportDescriptor.fromParser (c.setPos p) with
  | .ok (d, _) => !d.is_zeroed_out
  | _ => false

theorem nonzeroRecordAt_congr {c c' : Cursor} (hd : c'.data = c.data)
    (hs : c'.size = c.size) (p : Nat) : nonzeroRecordAt c' p = nonzeroRecordAt c p := by
  have h : c'.setPos p = c.setPos p := by
    unfold Cursor.setPos
    cases c; cases c'
    simp_all
  unfold nonzeroRecordAt
  rw [h]

theorem nonzeroRecordAt_self (c : Cursor) (h : nonzeroRecordAt c c.pos = true) :
    ∃ d c', ImageImportDescriptor.fromParser c = .ok (d, c') ∧ d.is_zeroed_out = false := by
  unfold nonzeroRecordAt at h
  rw [Cursor.setPos_self] at h
  cases hm : ImageImportDescriptor.fromParser c with
  | ok p =>
    obtain ⟨d, c'⟩ := p
    rw [hm] at h
    exact ⟨d, c', rfl, by simpa using h⟩
  | err e => rw [hm] at h; cases h
  | fatal s => rw [hm] at h; cases h

/-- If every one of the next `b + 1` records decodes to a non-terminator,
the descriptor loop with budget `b` keeps exactly `b + 1` of them and
returns them as an ordinary success. -/
theorem importDescriptorLoop_cap : ∀ (b : Nat) (c : Cursor),
    (∀ k, k ≤ b → nonzeroRecordAt c (c.pos + 20 * k) = true) →
    ∃ l c', importDescriptorLoop b c = .ok (l, c') ∧ l.length = b + 1 := by
  intro b
  induction b with
  | zero =>
    intro c h
    have h0 := h 0 (Nat.le_refl 0)
    rw [show c.pos + 20 * 0 = c.pos by omega] at h0
    obtain ⟨d, c', hok, hz⟩ := nonzeroRecordAt_self c h0
    refine ⟨[d], c', ?_, rfl⟩
    rw [importDescriptorLoop_zero, hok]
    simp [PResult.expectWith, hz]
  | succ b ih =>
    intro c h
    have h0 := h 0 (Nat.zero_le _)
    rw [show c.pos + 20 * 0 = c.pos by omega] at h0
    obtain ⟨d, c₁, hok, hz⟩ := nonzeroRecordAt_self c h0
    obtain ⟨hdata, hsize, hpos⟩ := stepsTo_iid c d c₁ hok
    have hnext : ∀ k, k ≤ b → nonzeroRecordAt c₁ (c₁.pos + 20 * k) = true := by
      intro k hk
      rw [nonzeroRecordAt_congr hdata hsize]
      rw [show c₁.pos + 20 * k = c.pos + 20 * (k + 1) by omega]
      exact h (k + 1) (by omega)
    obtain ⟨l, c₂, hloop, hlen⟩ := ih c₁ hnext
    refine ⟨d :: l, c₂, ?_, by simp [hlen]⟩
    rw [importDescriptorLoop_succ, hok]
    simp [PResult.expectWith, hz, hloop]

def c4data : Nat → Nat := fun i => if i % 20 = 0 then 1 else 0

def c4sec : Section :=
  { header := { SectionHeader.zero with
      name := [105], virtual_address := 4096, virtual_size := 4096, ptr_to_raw_data := 0 } }

def c4oh : OptionalHeader32 :=
  { oh32Zero with
    magic := 0x10b,
    import_table := { virtual_address := 4096, size := 40 } }

def c4coff : COFFHeader :=
  { COFFHeader.zero with number_of_sections := 1, size_of_optional_header := 224 }

def c4pe : PE :=
  { header := { dos := { e_magic := 0x5a4d, e_lfanew := 64 },
                nt := { signature := 0x4550, coff_header := c4coff },
                optional := .PE32 c4oh },
    sections := [c4sec], import_descriptors := [], dll_names := [],
    data := c4data, size := 5200 }

/-- Claim C4 (amended): for every import descriptor stream with more than
256 consecutive non-terminator records at the translated offset, the scan
stops after exactly 257 records — the `len() > 256` break fires after the
257th push — and returns them as an ordinary success; no distinct error
condition is reported. -/
theorem claim_C4_descriptor_cap (pe : PE) (c : Cursor) (off : Nat)
    (hoff : pe.convert_rva_to_file_offset (pe.get_import_table_idd).virtual_address = some off)
    (hrec : ∀ k, k ≤ 256 → nonzeroRecordAt c (off + 20 * k) = true) :
    ∃ l c', parse_import_descriptors pe c = .ok (l, c') ∧ l.length = 257 := by
  unfold parse_import_descriptors
  rw [hoff]
  have h' : ∀ k, k ≤ 256 → nonzeroRecordAt (c.setPos off) ((c.setPos off).pos + 20 * k) = true := by
    intro k hk
    rw [Cursor.setPos_pos,
      nonzeroRecordAt_congr (Cursor.setPos_data c off) (Cursor.setPos_size c off)]
    exact hrec k hk
  exact importDescriptorLoop_cap 256 (c.setPos off) h'

/-- Counterexample to C4 as stated: a stream of 258 non-zero records (one
at every 20-byte offset) makes `parse_import_descriptors` return an
ordinary `Ok` carrying 257 descriptors — not 256, and not a distinct
`ResourceLimitExceeded` condition. -/
theorem claim_C4_counterexample :
    (match parse_import_descriptors c4pe { data := c4data, size := 5200, pos := 0 } with
      | .ok (l, _) => some l.length
      | _ => none) = some 257 := rfl

/-- Witness for the amended C4 at the same concrete 258-record stream. -/
theorem claim_C4_witness :
    ∃ l c', parse_import_descriptors c4pe { data := c4data, size := 5200, pos := 0 } =
        .ok (l, c') ∧ l.length = 257 :=
  claim_C4_descriptor_cap c4pe { data := c4data, size := 5200, pos := 0 } 0 rfl (by decide)

/-! ## C6: error-result propagation versus panics -/

theorem parseDllNamesLoop_cons (pe : PE) (d : ImageImportDescriptor)
    (rest : List ImageImportDescriptor) (c : Cursor) :
    parseDllNamesLoop pe (d :: rest) c =
      match pe.convert_rva_to_file_offset d.name_rva with
      | none => .err "Import Descriptor Name RVA does not map to any section"
      | some off =>
        match readCString (c.setPos off) with
        | .err e => .err e
        | .fatal s => .fatal s
        | .ok (name_buffer, c') =>
          if isValidUtf8 name_buffer then
            match parseDllNamesLoop pe rest c' with
            | .ok (names, c'') => .ok (name_buffer :: names, c'')
            | .err e => .err e
            | .fatal s => .fatal s
          else .fatal "Invalid name found in import names" := rfl

/-- Claim C6 (amended): reads reached through `?` or `ok_or(..)?` abort the
enclosing decode with an error result — an unresolvable DLL-name RVA makes
`parse_dll_names` return the dangling-reference error, and a truncated
section header makes `SectionHeader::from_parser` return the read error —
but a failed import-descriptor record read goes through `.expect(..)` and
aborts with a panic, a distinct termination rather than an error result. -/
theorem claim_C6_error_propagation :
    (∀ (pe : PE) (c : Cursor) (off : Nat),
        pe.convert_rva_to_file_offset (pe.get_import_table_idd).virtual_address = some off →
        (ImageImportDescriptor.fromParser (c.setPos off)).isErr = true →
        parse_import_descriptors pe c =
          .fatal "Cannot parse ImageImportDescriptor from the Import Table") ∧
    (∀ (pe : PE) (c : Cursor) (d : ImageImportDescriptor)
        (rest : List ImageImportDescriptor),
        pe.import_descriptors = d :: rest →
        pe.convert_rva_to_file_offset d.name_rva = none →
        parse_dll_names pe c = .err "Import Descriptor Name RVA does not map to any section") ∧
    (∀ c : Cursor, c.size ≤ c.pos →
        SectionHeader.fromParser c = .err "failed to fill whole buffer") := by
  refine ⟨?_, ?_, ?_⟩
  · intro pe c off hoff herr
    unfold parse_import_descriptors
    rw [hoff]
    show importDescriptorLoop 256 (c.setPos off) =
      .fatal "Cannot parse ImageImportDescriptor from the Import Table"
    rw [show (256 : Nat) = 255 + 1 from rfl, importDescriptorLoop_succ]
    cases hm : ImageImportDescriptor.fromParser (c.setPos off) with
    | ok p => rw [hm] at herr; simp [PResult.isErr] at herr
    | err e => simp [PResult.expectWith]
    | fatal s => rw [hm] at herr; simp [PResult.isErr] at herr
  · intro pe c d rest hdesc hconv
    unfold parse_dll_names
    rw [hdesc, parseDllNamesLoop_cons, hconv]
  · intro c hle
    unfold SectionHeader.fromParser readU8
    rw [if_neg (by omega)]

/-- Counterexample to C6 as stated: a truncated import descriptor (a
10-byte buffer where 20 bytes are needed) terminates the parse with a
panic — not with the error-result abort the claim requires. -/
theorem claim_C6_counterexample :
    parse_import_descriptors c4pe { data := fun _ => 0, size := 10, pos := 0 } =
      .fatal "Cannot parse ImageImportDescriptor from the Import Table" := rfl

def c6pe : PE :=
  { header := PEHeader.zero, sections := [],
    import_descriptors := [{ ImageImportDescriptor.zero with name_rva := 5 }],
    dll_names := [], data := fun _ => 0, size := 0 }

/-- Witness for the amended C6: a 3-byte buffer panics the descriptor
read; a descriptor whose `name_rva` resolves to no section makes
`parse_dll_names` return the error result; an empty buffer makes the
section-header decode return the read error. -/
theorem claim_C6_witness :
    parse_import_descriptors c4pe { data := fun _ => 0, size := 3, pos := 0 } =
      .fatal "Cannot parse ImageImportDescriptor from the Import Table" ∧
    parse_dll_names c6pe { data := fun _ => 0, size := 0, pos := 0 } =
      .err "Import Descriptor Name RVA does not map to any section" ∧
    SectionHeader.fromParser { data := fun _ => 0, size := 0, pos := 0 } =
      .err "failed to fill whole buffer" := by
  refine ⟨?_, ?_, ?_⟩
  · exact claim_C6_error_propagation.1 c4pe _ 0 rfl rfl
  · exact claim_C6_error_propagation.2.1 c6pe _
      { ImageImportDescriptor.zero with name_rva := 5 } [] rfl rfl
  · exact claim_C6_error_propagation.2.2 _ (Nat.le_refl 0)

/-! ## C7: an untranslatable import directory yields an empty table -/

/-- Claim C7: whenever the import data directory's `virtual_address`
translates to no section — in particular for the `(0,0)` directory of an
image with no section mapped at RVA 0 — `parse_import_descriptors` returns
an empty descriptor list as an ordinary success, never an error. -/
theorem claim_C7_no_import_directory (pe : PE) (c : Cursor)
    (h : pe.convert_rva_to_file_offset (pe.get_import_table_idd).virtual_address = none) :
    parse_import_descriptors pe c = .ok ([], c) := by
  unfold parse_import_descriptors
  rw [h]

def c7pe : PE :=
  { header := PEHeader.zero, sections := [], import_descriptors := [],
    dll_names := [], data := fun _ => 0, size := 0 }

/-- Witness for C7: a PE with the default `(0,0)` import directory and no
sections. -/
theorem claim_C7_witness :
    parse_import_descriptors c7pe { data := fun _ => 0, size := 0, pos := 0 } =
      .ok ([], { data := fun _ => 0, size := 0, pos := 0 }) :=
  claim_C7_no_import_directory c7pe _ rfl

/-! ## C8: the first name byte of a section record -/

/-- Claim C8 (amended): a section record whose first name byte is 0x00
decodes to the empty-section sentinel (name "empty", every other field at
its default) and advances the cursor by exactly 40 bytes; a record whose
first name byte is '/' (0x2F) aborts with the `todo!` panic — an
unimplemented-feature process abort, not an error result, and never an
incorrect name. -/
theorem claim_C8_section_name_dispatch (c : Cursor) (hpos : c.pos < c.size) :
    (c.data c.pos % 256 = 0 →
        SectionHeader.fromParser c =
          .ok ({ SectionHeader.zero with name := emptySectionName },
               c.setPos (c.pos + 40))) ∧
    (c.data c.pos % 256 = 0x2F →
        SectionHeader.fromParser c =
          .fatal "Need to implement section header name finding in string table") := by
  constructor
  · intro h0
    unfold SectionHeader.fromParser readU8
    rw [if_pos hpos]
    simp [h0]
  · intro h2F
    unfold SectionHeader.fromParser readU8
    rw [if_pos hpos]
    simp [h2F]

/-- Counterexample to C8 as stated: a record starting with '/' makes the
decode abort with the `todo!` panic, not with an error value. -/
theorem claim_C8_counterexample :
    SectionHeader.fromParser { data := fun _ => 0x2F, size := 40, pos := 0 } =
      .fatal "Need to implement section header name finding in string table" := rfl

/-- Witness for the amended C8 on concrete 40-byte records. -/
theorem claim_C8_witness :
    SectionHeader.fromParser { data := fun _ => 0, size := 40, pos := 0 } =
      .ok ({ SectionHeader.zero with name := emptySectionName },
           { data := fun _ => 0, size := 40, pos := 40 }) ∧
    SectionHeader.fromParser { data := fun _ => 47, size := 40, pos := 0 } =
      .fatal "Need to implement section header name finding in string table" := by
  constructor
  · exact (claim_C8_section_name_dispatch _ (by decide)).1 (by decide)
  · exact (claim_C8_section_name_dispatch _ (by decide)).2 (by decide)

/-! ## C5, C9: optional-header dispatch and the section-table seek -/

theorem Cursor.ext' {c c' : Cursor} (hd : c.data = c'.data) (hs : c.size = c'.size)
    (hp : c.pos = c'.pos) : c = c' := by
  cases c; cases c'; simp_all

theorem readU16_ok {c : Cursor} {v : Nat} {c' : Cursor}
    (h : readU16 c = .ok (v, c')) : c' = c.setPos (c.pos + 2) := by
  unfold readU16 at h
  split at h
  · cases h; rfl
  · cases h

/-- `parseOptionalHeaderAndSeek` with the magic peek rewritten away. -/
theorem parseOptionalHeaderAndSeek_ok (d : Nat) (c cm : Cursor) (m : Nat)
    (hm : readU16 c = .ok (m, cm)) :
    parseOptionalHeaderAndSeek d c =
      (match (if m = PE_FORMAT_32_MAGIC then
          match OptionalHeader32.fromParser (cm.setPos (cm.pos - 2)) with
          | .ok (h, c') => .ok (OptionalHeader.PE32 h, c')
          | .err e => .err e
          | .fatal s => .fatal s
        else if m = PE_FORMAT_64_MAGIC then
          match OptionalHeader64.fromParser (cm.setPos (cm.pos - 2)) with
          | .ok (h, c') => .ok (OptionalHeader.PE64 h, c')
          | .err e => .err e
          | .fatal s => .fatal s
        else (.err "Invalid PE optional header magic" : PResult (OptionalHeader × Cursor))) with
      | .err e => .err e
      | .fatal s => .fatal s
      | .ok (optional, c₃) =>
        .ok (optional,
          c₃.setPos (u64add c₃.pos (u64sub d (c₃.pos - (cm.setPos (cm.pos - 2)).pos))))) := by
  unfold parseOptionalHeaderAndSeek
  rw [hm]

/-- Claim C5: after the chosen Optional Header variant is decoded, the
cursor is moved by the difference between the declared
`size_of_optional_header` and the bytes actually consumed (224 for the
32-bit variant, 240 for the 64-bit one) — computed with u64 wrapping
arithmetic, so the difference may be "negative" — landing the section
table read exactly at start-of-optional-header + declared size. A declared
size smaller than the decoded variant's size lands strictly before the
post-decode position: a backward seek, and still an ordinary success
rather than a fault. -/
theorem claim_C5_section_table_offset (d : Nat) (c cm : Cursor) (m : Nat)
    (hm : readU16 c = .ok (m, cm))
    (hd : d < 65536) (hpos : c.pos + 65536 < 18446744073709551616) :
    (m = 0x10b → ∀ h c₂, OptionalHeader32.fromParser c = .ok (h, c₂) →
        parseOptionalHeaderAndSeek d c = .ok (.PE32 h, c₂.setPos (c.pos + d)) ∧
        (d < 224 → c.pos + d < c₂.pos)) ∧
    (m = 0x20b → ∀ h c₂, OptionalHeader64.fromParser c = .ok (h, c₂) →
        parseOptionalHeaderAndSeek d c = .ok (.PE64 h, c₂.setPos (c.pos + d)) ∧
        (d < 240 → c.pos + d < c₂.pos)) := by
  have hcm : cm = c.setPos (c.pos + 2) := readU16_ok hm
  have hback : cm.setPos (cm.pos - 2) = c := by
    subst hcm
    refine Cursor.ext' rfl rfl ?_
    simp
  constructor
  · intro hm32 h c₂ hoh
    obtain ⟨hd32, hs32, hp32⟩ := stepsTo_oh32 c h c₂ hoh
    refine ⟨?_, fun hlt => by omega⟩
    rw [parseOptionalHeaderAndSeek_ok d c cm m hm, hback]
    subst hm32
    rw [if_pos (show (0x10b : Nat) = PE_FORMAT_32_MAGIC from rfl), hoh]
    have harith : u64add c₂.pos (u64sub d (c₂.pos - c.pos)) = c.pos + d := by
      unfold u64add u64sub
      rw [hp32]
      omega
    dsimp only
    rw [harith]
  · intro hm64 h c₂ hoh
    obtain ⟨hd64, hs64, hp64⟩ := stepsTo_oh64 c h c₂ hoh
    refine ⟨?_, fun hlt => by omega⟩
    rw [parseOptionalHeaderAndSeek_ok d c cm m hm, hback]
    subst hm64
    rw [if_neg (show ¬((0x20b : Nat) = PE_FORMAT_32_MAGIC) from by decide),
        if_pos (show (0x20b : Nat) = PE_FORMAT_64_MAGIC from rfl), hoh]
    have harith : u64add c₂.pos (u64sub d (c₂.pos - c.pos)) = c.pos + d := by
      unfold u64add u64sub
      rw [hp64]
      omega
    dsimp only
    rw [harith]

def w5data : Nat → Nat := fun i => if i = 0 then 0x0B else if i = 1 then 0x01 else 0

def w5c : Cursor := { data := w5data, size := 224, pos := 0 }

def w5oh : OptionalHeader32 :=
  match OptionalHeader32.fromParser w5c with
  | .ok (h, _) => h
  | _ => oh32Zero

/-- Witness for C5: a 224-byte buffer holding a PE32 optional header, with
a declared size of 100 < 224 — the seek still lands at start + 100, a
backward seek from the post-decode position 224. -/
theorem claim_C5_witness :
    parseOptionalHeaderAndSeek 100 w5c =
      .ok (.PE32 w5oh,
        ({ data := w5data, size := 224, pos := 224 } : Cursor).setPos (w5c.pos + 100)) ∧
    (100 < 224 → w5c.pos + 100 < ({ data := w5data, size := 224, pos := 224 } : Cursor).pos) :=
  (claim_C5_section_table_offset 100 w5c { data := w5data, size := 224, pos := 2 } 267
    rfl (by decide) (by decide)).1 rfl w5oh { data := w5data, size := 224, pos := 224 } rfl

/-- Claim C9: a peeked optional-header magic of 0x10B takes the 32-bit
branch (so a successful decode always yields the `PE32` variant, whose
parse consumes 224 bytes — 4-byte `image_base` and stack/heap fields);
0x20B takes the 64-bit branch (the `PE64` variant, 240 bytes — 8-byte
`image_base` and stack/heap fields); any other magic fails the parse with
the unknown-optional-header-magic error. -/
theorem claim_C9_optional_magic_dispatch (d : Nat) (c cm : Cursor) (m : Nat)
    (hm : readU16 c = .ok (m, cm)) :
    (m = 0x10b → ∀ oh c', parseOptionalHeaderAndSeek d c = .ok (oh, c') →
        ∃ h, oh = OptionalHeader.PE32 h) ∧
    (m = 0x20b → ∀ oh c', parseOptionalHeaderAndSeek d c = .ok (oh, c') →
        ∃ h, oh = OptionalHeader.PE64 h) ∧
    (m ≠ 0x10b → m ≠ 0x20b →
        parseOptionalHeaderAndSeek d c = .err "Invalid PE optional header magic") ∧
    (∀ (c₀ : Cursor) (h : OptionalHeader32) (c' : Cursor),
        OptionalHeader32.fromParser c₀ = .ok (h, c') → c'.pos = c₀.pos + 224) ∧
    (∀ (c₀ : Cursor) (h : OptionalHeader64) (c' : Cursor),
        OptionalHeader64.fromParser c₀ = .ok (h, c') → c'.pos = c₀.pos + 240) := by
  refine ⟨?_, ?_, ?_, ?_, ?_⟩
  · intro hm32 oh c' hok
    rw [parseOptionalHeaderAndSeek_ok d c cm m hm] at hok
    subst hm32
    rw [if_pos (show (0x10b : Nat) = PE_FORMAT_32_MAGIC from rfl)] at hok
    cases hoh : OptionalHeader32.fromParser (cm.setPos (cm.pos - 2)) with
    | ok p =>
      obtain ⟨h, c₂⟩ := p
      rw [hoh] at hok
      simp only [] at hok
      exact ⟨h, by injection hok with h1; injection h1 with h2 h3; exact h2.symm⟩
    | err e => rw [hoh] at hok; cases hok
    | fatal s => rw [hoh] at hok; cases hok
  · intro hm64 oh c' hok
    rw [parseOptionalHeaderAndSeek_ok d c cm m hm] at hok
    subst hm64
    rw [if_neg (show ¬((0x20b : Nat) = PE_FORMAT_32_MAGIC) from by decide),
        if_pos (show (0x20b : Nat) = PE_FORMAT_64_MAGIC from rfl)] at hok
    cases hoh : OptionalHeader64.fromParser (cm.setPos (cm.pos - 2)) with
    | ok p =>
      obtain ⟨h, c₂⟩ := p
      rw [hoh] at hok
      simp only [] at hok
      exact ⟨h, by injection hok with h1; injection h1 with h2 h3; exact h2.symm⟩
    | err e => rw [hoh] at hok; cases hok
    | fatal s => rw [hoh] at hok; cases hok
  · intro h32 h64
    rw [parseOptionalHeaderAndSeek_ok d c cm m hm]
    rw [if_neg (show ¬(m = PE_FORMAT_32_MAGIC) from h32),
        if_neg (show ¬(m = PE_FORMAT_64_MAGIC) from h64)]
  · intro c₀ h c' hok
    exact (stepsTo_oh32 c₀ h c' hok).2.2
  · intro c₀ h c' hok
    exact (stepsTo_oh64 c₀ h c' hok).2.2

def w9c64data : Nat → Nat := fun i => if i = 0 then 0x0B else if i = 1 then 0x02 else 0

def w9c64 : Cursor := { data := w9c64data, size := 240, pos := 0 }

def w9ohp : OptionalHeader :=
  match parseOptionalHeaderAndSeek 224 w5c with
  | .ok (oh, _) => oh
  | _ => .PE64 oh64Zero

def w9curp : Cursor :=
  match parseOptionalHeaderAndSeek 224 w5c with
  | .ok (_, x) => x
  | _ => w5c

def w9ohp64 : OptionalHeader :=
  match parseOptionalHeaderAndSeek 240 w9c64 with
  | .ok (oh, _) => oh
  | _ => .PE32 oh32Zero

def w9curp64 : Cursor :=
  match parseOptionalHeaderAndSeek 240 w9c64 with
  | .ok (_, x) => x
  | _ => w9c64

def w9oh64 : OptionalHeader64 :=
  match OptionalHeader64.fromParser w9c64 with
  | .ok (h, _) => h
  | _ => oh64Zero

def w32cEnd : Cursor :=
  match OptionalHeader32.fromParser w5c with
  | .ok (_, x) => x
  | _ => w5c

def w64cEnd : Cursor :=
  match OptionalHeader64.fromParser w9c64 with
  | .ok (_, x) => x
  | _ => w9c64

/-- Witness for C9: concrete buffers with magic 0x10B, 0x20B, and 0x0000,
plus the 224- and 240-byte consumption facts at concrete parses. -/
theorem claim_C9_witness :
    (∃ h, w9ohp = OptionalHeader.PE32 h) ∧
    (∃ h, w9ohp64 = OptionalHeader.PE64 h) ∧
    parseOptionalHeaderAndSeek 0 { data := fun _ => 0, size := 2, pos := 0 } =
      .err "Invalid PE optional header magic" ∧
    w32cEnd.pos = w5c.pos + 224 ∧
    w64cEnd.pos = w9c64.pos + 240 := by
  refine ⟨?_, ?_, ?_, ?_, ?_⟩
  · exact (claim_C9_optional_magic_dispatch 224 w5c
      { data := w5data, size := 224, pos := 2 } 267 rfl).1 rfl w9ohp w9curp rfl
  · exact (claim_C9_optional_magic_dispatch 240 w9c64
      { data := w9c64data, size := 240, pos := 2 } 523 rfl).2.1 rfl w9ohp64 w9curp64 rfl
  · exact (claim_C9_optional_magic_dispatch 0 { data := fun _ => 0, size := 2, pos := 0 }
      { data := fun _ => 0, size := 2, pos := 2 } 0 rfl).2.2.1 (by norm_num) (by norm_num)
  · exact (claim_C9_optional_magic_dispatch 224 w5c
      { data := w5data, size := 224, pos := 2 } 267 rfl).2.2.2.1 w5c w5oh w32cEnd rfl
  · exact (claim_C9_optional_magic_dispatch 240 w9c64
      { data := w9c64data, size := 240, pos := 2 } 523 rfl).2.2.2.2 w9c64 w9oh64 w64cEnd rfl

/-! ## C10: the path checks of `parse_pe` -/

theorem endsWith_iff {s p : List Char} : endsWith s p = true ↔ p <:+ s := by
  unfold endsWith
  exact List.isSuffixOf_iff_suffix

theorem suffix_eq_of_length {p q s : List Char} (hp : p <:+ s) (hq : q <:+ s)
    (hl : p.length = q.length) : p = q := by
  obtain ⟨t, ht⟩ := hp
  obtain ⟨u, hu⟩ := hq
  have hlen : t.length = u.length := by
    have h1 := congrArg List.length ht
    have h2 := congrArg List.length hu
    simp only [List.length_append] at h1 h2
    omega
  exact List.append_inj_right (ht.trans hu.symm) hlen

/-- Two suffixes of the same string with the same length coincide, so a
string ending in one four-character suffix ends in no other. -/
theorem endsWith_disjoint {s p q : List Char} (hp : endsWith s p = true)
    (hl : p.length = q.length) (hne : q ≠ p) : endsWith s q = false := by
  cases hq : endsWith s q
  · rfl
  · exact absurd (suffix_eq_of_length (endsWith_iff.mp hq) (endsWith_iff.mp hp) hl.symm) hne

/-- Claim C10: `parse_pe`'s extension check is an exact, case-sensitive
suffix match against ".exe" and ".dll": an existing path ending in a case
variant such as ".EXE" or ".Dll" is rejected with the not-a-PE-file error
whatever the file's bytes are (so before any byte is read), and the
existence check runs before the extension check (a missing path reports
"File does not exist" whatever its extension). -/
theorem claim_C10_extension_check (path : List Char) (file_bytes : Nat → Nat) (n : Nat) :
    (parse_pe path false file_bytes n = .err "File does not exist") ∧
    (endsWith path ".EXE".toList = true ∨ endsWith path ".Dll".toList = true →
        parse_pe path true file_bytes n =
          .err "File is not a Portable Executable (.exe | .dll)") := by
  constructor
  · rfl
  · intro hcase
    have hexe : endsWith path ".exe".toList = false := by
      rcases hcase with h | h
      · exact endsWith_disjoint h (by decide) (by decide)
      · exact endsWith_disjoint h (by decide) (by decide)
    have hdll : endsWith path ".dll".toList = false := by
      rcases hcase with h | h
      · exact endsWith_disjoint h (by decide) (by decide)
      · exact endsWith_disjoint h (by decide) (by decide)
    unfold parse_pe
    rw [if_neg (show ¬((!true : Bool) = true) from by decide), hexe, hdll]
    rfl

/-- Witness for C10: a missing ".dll" path, and existing ".EXE" and ".Dll"
paths with two different byte contents, all rejected. -/
theorem claim_C10_witness :
    parse_pe "a.dll".toList false (fun _ => 0) 0 = .err "File does not exist" ∧
    parse_pe "a.EXE".toList true (fun _ => 0) 0 =
      .err "File is not a Portable Executable (.exe | .dll)" ∧
    parse_pe "b.Dll".toList true (fun _ => 77) 9 =
      .err "File is not a Portable Executable (.exe | .dll)" := by
  refine ⟨?_, ?_, ?_⟩
  · exact (claim_C10_extension_check "a.dll".toList (fun _ => 0) 0).1
  · exact (claim_C10_extension_check "a.EXE".toList (fun _ => 0) 0).2 (Or.inl (by decide))
  · exact (claim_C10_extension_check "b.Dll".toList (fun _ => 77) 9).2 (Or.inr (by decide))

end ExecDump
